import Mathlib

/-!
Verification development for the sawtooth-validator web API module
(src/txnserver/web_api.py).  The Python code is shallowly embedded as
pure Lean functions: mutable state (the validator flag mutated by the
command handler) is threaded explicitly, mutation of request-private
copies becomes rebinding of local values, and Python exceptions become
an explicit `Except PyErr` error monad.  Python dictionaries are
embedded as insertion-ordered association lists with CPython update
semantics (update in place, append if the key is new).  External
collaborators that the module only calls (transaction-family
capabilities, json/cbor codecs, signing) are parameters collected in
the `Collabs` structure, so every theorem quantifies over them.
-/

set_option autoImplicit false

namespace WebApi

/-- Python exceptions that can escape expressions in the embedded code. -/
inductive PyErr where
  | attributeError
  | keyError (k : String)
  | valueError
  | indexError
  deriving DecidableEq, Repr

/-- Status of a transaction, journal.transaction.Status. -/
inductive TStatus where
  | pend
  | committed
  | unknownStatus
  deriving DecidableEq, Repr

/-- Minimal universe of Python values appearing in GET responses. -/
inductive PyVal where
  | pyNone
  | str (s : String)
  | int (n : Int)
  | list (l : List PyVal)
  | dict (d : List (String × PyVal))
  | status (st : TStatus)

/-- Journal transaction object, restricted to the attributes read by
web_api.py.  `dumpD` models the dictionary produced by `txn.dump()`
(the serialization is family defined and external to this module). -/
structure Txn where
  Identifier : String
  TransactionTypeName : String
  Status : TStatus
  InBlock : String
  dumpD : List (String × PyVal)

/-- Gossip message object, restricted to the attributes read by
web_api.py: the type tag used for handler lookup and the optional
wrapped transaction (`hasattr(msg, Transaction) and msg.Transaction is
not None` becomes `Transaction = some t`). -/
structure Msg where
  MessageType : String
  Transaction : Option Txn

/-- Decoded request payload (the `minfo` dictionary), restricted to the
entries web_api.py reads: the `__TYPE__` tag and the command `action`.
A missing entry is `none`. -/
structure Payload where
  typeTag : Option String
  action : Option String
  deriving DecidableEq, Repr

/-- Outcome of a family check_valid call: the family may raise
InvalidTransactionError with a message, raise anything else, or
succeed. -/
inductive ChkFail where
  | invalidTransactionError (detail : String)
  | otherError
  deriving DecidableEq, Repr

/-- Lookup in an insertion-ordered association list (Python dict read;
`none` models a missing key). -/
def alookup {α : Type} : List (String × α) → String → Option α
  | [], _ => none
  | (k, v) :: rest, key => if key = k then some v else alookup rest key

/-- Update in an insertion-ordered association list with CPython dict
assignment semantics: replace in place if the key exists, append
otherwise. -/
def aset {α : Type} : List (String × α) → String → α → List (String × α)
  | [], key, v => [(key, v)]
  | (k, w) :: rest, key, v =>
      if key = k then (k, v) :: rest else (k, w) :: aset rest key v

/-- A block store map: per-family stores indexed by family name
(the TransactionStores dictionary of a BlockStore). -/
def StoreMap (σ : Type) : Type := List (String × σ)

/-- Membership test `name in storemap.TransactionStores`. -/
def smapMem {σ : Type} (m : StoreMap σ) (k : String) : Bool :=
  (alookup m k).isSome

/-- Modelled from the spec: `GlobalStoreMap.GetFamilyStore(name) → Store
| NotFound`.  The implementation (journal.global_store_manager, not part
of this module) raises KeyError when the family has no store, which the
calling code in web_api.py does not catch. -/
def get_transaction_store {σ : Type} (m : StoreMap σ) (k : String) :
    Except PyErr σ :=
  match alookup m k with
  | some s => Except.ok s
  | none => Except.error (PyErr.keyError k)

/-- External collaborators used by web_api.py, as pure parameters:
the pluggable transaction-family capabilities (is_valid, apply,
check_valid), the json/cbor payload codecs from gossip.common (decoding
failure models a raised exception), and node signing. -/
structure Collabs (σ : Type) where
  is_valid : Txn → σ → Bool
  applyTxn : Txn → σ → σ
  check_valid : Txn → σ → Except ChkFail Unit
  decodeJson : String → Option Payload
  decodeCbor : String → Option Payload
  signTxn : Txn → Txn
  signMsg : Msg → Msg

/-- Ledger state read by web_api.py.  GlobalStoreMap maps a block id to
the store map at that block (get_block_store; modelled from the spec as
`GetGlobalStoreMap(blockID) → GlobalStoreMap | NotFound` since
journal.global_store_manager is external to this module).  MessageQueue
elements may be None (`if qmsg` guard), TransactionStore values may be
None (`if pend_txn` guard).  committed_block_ids and BlockStore (block
id to TransactionIDs) are collaborator data used only by GET paths. -/
structure Ledger (σ : Type) where
  MostRecentCommittedBlockID : String
  GlobalStoreMap : List (String × StoreMap σ)
  MessageQueue : List (Option Msg)
  PendingTransactions : List String
  TransactionStore : List (String × Option Txn)
  MessageHandlerMap : List (String × (Payload → Msg))
  BlockStore : List (String × List String)
  committed_block_ids : Int → List String

/-- Validator state mutated by the command handler. -/
structure ValidatorState where
  delaystart : Bool
  deriving DecidableEq, Repr

/-- Response bodies, kept symbolic instead of serialized: error texts
(the constant part of the format string handed to error_response),
serialized messages, command results, and GET values. -/
inductive Body where
  | text (s : String)
  | jsonMsg (m : Msg)
  | cborMsg (m : Msg)
  | jsonCmd (p : Payload)
  | jsonVal (v : PyVal)
  | cborVal (v : PyVal)
  | prettyVal (v : PyVal)

def httpOK : Nat := 200
def httpFOUND : Nat := 302
def httpBAD_REQUEST : Nat := 400
def httpNOT_FOUND : Nat := 404
def httpNOT_ALLOWED : Nat := 405

/-- RootPage.error_response: sets the response code and returns an empty
body for HEAD requests, the message followed by a newline otherwise. -/
def error_response (method : String) (code : Nat) (msg : String) :
    Nat × Body :=
  (code, if method = "HEAD" then Body.text "" else Body.text (msg ++ "\n"))

/-- Path splitting shared by do_get and do_post: split on slashes and
drop the leading empty components, with the semantics of the Python
str.split on a one-character separator (realized over the character
list so that it evaluates inside the kernel). -/
def splitPath (p : String) : List String :=
  ((p.toList.splitOn '/').map (fun cs => String.mk cs)).dropWhile
    (fun s => s = "")

/-- HTTP POST request as seen by do_post. -/
structure PostRequest where
  path : String
  method : String
  contentType : Option String
  body : String
  clientIP : String

/-- Dispatcher step of do_post: first path component (or the literal
error when the path is empty), with fallback to the default forward
handler when the component is not a PostPageMap key. -/
def postPfx (req : PostRequest) : String :=
  let comps := splitPath req.path
  let p0 := match comps with
    | [] => "error"
    | h :: _ => h
  if p0 = "default" ∨ p0 = "forward" ∨ p0 = "initiate" ∨ p0 = "command" ∨
      p0 = "echo" then p0 else "default"

/-- One iteration of the message-queue replay loop (web_api.py lines
284-294): a popped element that is None or whose MessageType is not a
MessageHandlerMap key is skipped; a transaction-carrying message has its
family store resolved in the overlay (KeyError propagates), and the
transaction is applied to the overlay only if it is_valid against the
current overlay store, otherwise skipped. -/
def qmsgStep {σ : Type} (c : Collabs σ)
    (hmap : List (String × (Payload → Msg))) (smap : StoreMap σ)
    (qmsg : Option Msg) : Except PyErr (StoreMap σ) :=
  match qmsg with
  | none => Except.ok smap
  | some m =>
    if (alookup hmap m.MessageType).isSome then
      match m.Transaction with
      | none => Except.ok smap
      | some t =>
        match get_transaction_store smap t.TransactionTypeName with
        | Except.error e => Except.error e
        | Except.ok my_store =>
          if c.is_valid t my_store then
            Except.ok (aset smap t.TransactionTypeName (c.applyTxn t my_store))
          else
            Except.ok smap
    else
      Except.ok smap

/-- The while loop of web_api.py lines 284-294.  The loop pops from the
end of the queue copy, so it runs over the reverse of the list; the
caller passes the reversed queue. -/
def replayQueueGo {σ : Type} (c : Collabs σ)
    (hmap : List (String × (Payload → Msg))) :
    StoreMap σ → List (Option Msg) → Except PyErr (StoreMap σ)
  | smap, [] => Except.ok smap
  | smap, m :: rest =>
    match qmsgStep c hmap smap m with
    | Except.error e => Except.error e
    | Except.ok s2 => replayQueueGo c hmap s2 rest

/-- One iteration of the pending-transaction replay loop (web_api.py
lines 296-305), with the evaluation order of the source preserved:
first the TransactionStore lookup (KeyError on a missing id), then the
attribute access pend_txn.TransactionTypeName in the argument of
get_transaction_store (AttributeError when the stored value is None),
then the overlay store resolution (KeyError on an unknown family), and
only then the guard `if pend_txn and pend_txn.is_valid(my_store)` -
at which point pend_txn can no longer be None. -/
def pendStep {σ : Type} (c : Collabs σ)
    (tstore : List (String × Option Txn)) (smap : StoreMap σ)
    (txn_id : String) : Except PyErr (StoreMap σ) :=
  match alookup tstore txn_id with
  | none => Except.error (PyErr.keyError txn_id)
  | some pend_txn =>
    match pend_txn with
    | none => Except.error PyErr.attributeError
    | some t =>
      match get_transaction_store smap t.TransactionTypeName with
      | Except.error e => Except.error e
      | Except.ok my_store =>
        if c.is_valid t my_store then
          Except.ok (aset smap t.TransactionTypeName (c.applyTxn t my_store))
        else
          Except.ok smap

/-- The for loop of web_api.py lines 296-305, iterating the keys of
PendingTransactions in their dictionary iteration order. -/
def replayPendingGo {σ : Type} (c : Collabs σ)
    (tstore : List (String × Option Txn)) :
    StoreMap σ → List String → Except PyErr (StoreMap σ)
  | smap, [] => Except.ok smap
  | smap, k :: rest =>
    match pendStep c tstore smap k with
    | Except.error e => Except.error e
    | Except.ok s2 => replayPendingGo c tstore s2 rest

/-- Outcome of the validation phase: either the candidate passed, or an
error response (code and message text) is to be returned. -/
inductive ValidationOutcome where
  | valid
  | rejected (code : Nat) (msgText : String)
  deriving DecidableEq, Repr

/-- Final admission check of web_api.py lines 307-330: resolve the
candidate family store in the fully replayed overlay (line 309 is
outside the try block, so a KeyError there propagates) and run the
family check_valid capability, classifying InvalidTransactionError and
any other failure into distinct bad-request responses. -/
def candidateCheck {σ : Type} (c : Collabs σ) (mytxn : Txn)
    (smap : StoreMap σ) : Except PyErr ValidationOutcome :=
  match get_transaction_store smap mytxn.TransactionTypeName with
  | Except.error e => Except.error e
  | Except.ok my_store =>
    match c.check_valid mytxn my_store with
    | Except.error (ChkFail.invalidTransactionError e) =>
      Except.ok (ValidationOutcome.rejected httpBAD_REQUEST
        ("enclosed transaction failed transaction family validation check: "
          ++ e))
    | Except.error ChkFail.otherError =>
      Except.ok (ValidationOutcome.rejected httpBAD_REQUEST
        "enclosed transaction is not valid")
    | Except.ok _ => Except.ok ValidationOutcome.valid

/-- The speculative validation pipeline of web_api.py lines 250-333 for
a candidate transaction: resolve the store map of the most recently
committed block (bad request when there is none), reject a candidate
whose family has no store in it, replay a point-in-time copy of the
message queue in pop (last-in first-out) order onto the private
overlay, replay the pending transactions, and run the final admission
check.  The overlay temp_store_map starts as a copy-on-write view of
the real store map, which in the pure embedding is the value itself;
every apply during replay rebinds only this private value. -/
def validationPhase {σ : Type} (c : Collabs σ) (L : Ledger σ)
    (mytxn : Txn) : Except PyErr ValidationOutcome :=
  match alookup L.GlobalStoreMap L.MostRecentCommittedBlockID with
  | none =>
    Except.ok (ValidationOutcome.rejected httpBAD_REQUEST
      "unable to validate enclosed transaction")
  | some real_store_map =>
    let temp_store_map := real_store_map
    if smapMem temp_store_map mytxn.TransactionTypeName = false then
      Except.ok (ValidationOutcome.rejected httpBAD_REQUEST
        "unable to validate enclosed transaction")
    else
      let my_queue := L.MessageQueue
      match replayQueueGo c L.MessageHandlerMap temp_store_map
          my_queue.reverse with
      | Except.error e => Except.error e
      | Except.ok t1 =>
        match replayPendingGo c L.TransactionStore t1
            L.PendingTransactions with
        | Except.error e => Except.error e
        | Except.ok t2 => candidateCheck c mytxn t2

/-- Lines 248-333 of do_post: work on a deep copy of the decoded
message (identity on pure values) and run the validation phase exactly
when the message carries a transaction. -/
def postValidation {σ : Type} (c : Collabs σ) (L : Ledger σ)
    (msg : Msg) : Except PyErr ValidationOutcome :=
  match msg.Transaction with
  | none => Except.ok ValidationOutcome.valid
  | some mytxn => validationPhase c L mytxn

/-- Decoding step of the gossip branch (web_api.py lines 217-224):
select the codec by the declared content type; an unrecognized content
type is badEnc, a codec failure is decodeFail. -/
inductive DecodeRes where
  | badEnc
  | decodeFail
  | okPayload (p : Payload)
  deriving Repr

def postDecode {σ : Type} (c : Collabs σ) (req : PostRequest) : DecodeRes :=
  if req.contentType = some "application/json" then
    match c.decodeJson req.body with
    | none => DecodeRes.decodeFail
    | some p => DecodeRes.okPayload p
  else if req.contentType = some "application/cbor" then
    match c.decodeCbor req.body with
    | none => DecodeRes.decodeFail
    | some p => DecodeRes.okPayload p
  else
    DecodeRes.badEnc

/-- Gossip POST handlers (_msg_forward, _msg_initiate, _msg_echo).
Returns the response message and the list of messages handed to
Ledger.handle_message (the gossip-forward collaborator), or the Error
raised by _msg_initiate for a non-loopback caller, which do_post turns
into an error response.  _msg_initiate signs the wrapped transaction
(for a TransactionMessage, the message kind that wraps a transaction)
and the message before forwarding. -/
def runPostHandler {σ : Type} (c : Collabs σ) (pfx clientIP : String)
    (msg : Msg) : Except (Nat × String) (Msg × List Msg) :=
  if pfx = "initiate" then
    if clientIP ≠ "127.0.0.1" then
      Except.error (httpNOT_ALLOWED, "not authorized for message initiation")
    else
      let m1 := match msg.Transaction with
        | some t => { msg with Transaction := some (c.signTxn t) }
        | none => msg
      let m2 := c.signMsg m1
      Except.ok (m2, [m2])
  else if pfx = "echo" then
    Except.ok (msg, [])
  else
    Except.ok (msg, [msg])

/-- Result of do_post: the response (or an uncaught Python exception
escaping to the twisted errback), the ledger and validator state after
the call, and the messages handed to the gossip-forward collaborator. -/
structure DPResult (σ : Type) where
  outcome : Except PyErr (Nat × Body)
  ledger : Ledger σ
  validator : ValidatorState
  forwarded : List Msg

/-- Status code of the response, when one was produced. -/
def DPResult.statusCode {σ : Type} (r : DPResult σ) : Option Nat :=
  match r.outcome with
  | Except.ok (code, _) => some code
  | Except.error _ => none

/-- RootPage.do_post.  The command branch decodes json only and runs
_do_command (a missing action key raises KeyError, caught by the bare
except into a generic bad request; only _do_command writes the
validator state).  The gossip branch decodes the payload, resolves the
message constructor by the __TYPE__ tag (defaulting to **UNSPECIFIED**,
rejected like any unknown type), runs the validation pipeline when the
message carries a transaction, and finally runs the routed handler,
serializing the response message in the request encoding.  Every branch
returns the ledger it was given: no statement of do_post assigns to any
ledger attribute. -/
def do_post {σ : Type} (c : Collabs σ) (L : Ledger σ)
    (V : ValidatorState) (req : PostRequest) : DPResult σ :=
  let pfx := postPfx req
  if pfx = "command" then
    if req.contentType = some "application/json" then
      match c.decodeJson req.body with
      | none =>
        { outcome := Except.ok (error_response req.method httpBAD_REQUEST
            "unable to decode incoming request"),
          ledger := L, validator := V, forwarded := [] }
      | some minfo =>
        match minfo.action with
        | none =>
          { outcome := Except.ok (error_response req.method httpBAD_REQUEST
              "error processing http request"),
            ledger := L, validator := V, forwarded := [] }
        | some act =>
          if act = "start" then
            if V.delaystart = true then
              { outcome := Except.ok (httpOK,
                  Body.jsonCmd { minfo with action := some "started" }),
                ledger := L, validator := { V with delaystart := false },
                forwarded := [] }
            else
              { outcome := Except.ok (httpOK,
                  Body.jsonCmd { minfo with action := some "running" }),
                ledger := L, validator := V, forwarded := [] }
          else
            { outcome := Except.ok (httpOK,
                Body.jsonCmd { minfo with action := some "startup failed" }),
              ledger := L, validator := V, forwarded := [] }
    else
      { outcome := Except.ok (error_response req.method httpBAD_REQUEST
          "bad message encoding"),
        ledger := L, validator := V, forwarded := [] }
  else
    match postDecode c req with
    | DecodeRes.badEnc =>
      { outcome := Except.ok (error_response req.method httpBAD_REQUEST
          "unknown message encoding"),
        ledger := L, validator := V, forwarded := [] }
    | DecodeRes.decodeFail =>
      { outcome := Except.ok (error_response req.method httpBAD_REQUEST
          "unabled to decode incoming request"),
        ledger := L, validator := V, forwarded := [] }
    | DecodeRes.okPayload minfo =>
      let typename := minfo.typeTag.getD "**UNSPECIFIED**"
      match alookup L.MessageHandlerMap typename with
      | none =>
        { outcome := Except.ok (error_response req.method httpBAD_REQUEST
            "received request for unknown message type"),
          ledger := L, validator := V, forwarded := [] }
      | some ctor =>
        let msg := ctor minfo
        match postValidation c L msg with
        | Except.error e =>
          { outcome := Except.error e, ledger := L, validator := V,
            forwarded := [] }
        | Except.ok (ValidationOutcome.rejected code msgText) =>
          { outcome := Except.ok (error_response req.method code msgText),
            ledger := L, validator := V, forwarded := [] }
        | Except.ok ValidationOutcome.valid =>
          match runPostHandler c pfx req.clientIP msg with
          | Except.error (code, _detail) =>
            { outcome := Except.ok (error_response req.method code
                "exception while processing request"),
              ledger := L, validator := V, forwarded := [] }
          | Except.ok (rmsg, fwd) =>
            { outcome := Except.ok (httpOK,
                if req.contentType = some "application/json" then
                  Body.jsonMsg rmsg
                else
                  Body.cborMsg rmsg),
              ledger := L, validator := V, forwarded := fwd }

/-- Failures escaping a GET page handler: a twisted Error with an HTTP
status (caught by the first except clause of do_get) or any other
Python exception (caught by the bare except clause). -/
inductive GetFail where
  | http (code : Nat) (detail : String)
  | py (e : PyErr)
  deriving DecidableEq, Repr

/-- Request arguments: request.args maps an argument name to the list
of values given for it. -/
def Args : Type := List (String × List String)

/-- Python int() applied to an argument string; a non-numeric string
raises ValueError. -/
def pyInt (s : String) : Except PyErr Int :=
  match s.toInt? with
  | some n => Except.ok n
  | none => Except.error PyErr.valueError

/-- Reading the blockcount argument in _handle_txn_request lines
534-536: absent means zero; present means int of the first value
(an empty value list raises IndexError on pop). -/
def blockcountArg (args : Args) : Except PyErr Int :=
  match alookup args "blockcount" with
  | none => Except.ok 0
  | some [] => Except.error PyErr.indexError
  | some (s :: _) => pyInt s

/-- The while loop of _handle_txn_request lines 540-542: pop block ids
from the end of the committed list and extend the accumulated
transaction id list from BlockStore (a missing block id raises
KeyError).  The caller passes the reversed block id list. -/
def collectTxnIds (bs : List (String × List String)) :
    List String → List String → Except GetFail (List String)
  | acc, [] => Except.ok acc
  | acc, bid :: rest =>
    match alookup bs bid with
    | none => Except.error (GetFail.py (PyErr.keyError bid))
    | some tids => collectTxnIds bs (acc ++ tids) rest

/-- RootPage._handle_txn_request (web_api.py lines 514-574).  An empty
path lists transaction ids from the committed blocks.  Otherwise the id
is resolved in the TransactionStore (not-found Error when absent).  For
a header-only request (test_only) the result is None for a committed
transaction and a found Error for an uncommitted one; reading an
attribute of a None store entry raises AttributeError.  Otherwise the
dump dictionary is decorated with Identifier, Status and, when
committed, InBlock, and either returned whole or projected to one
field. -/
def handle_txn_request {σ : Type} (L : Ledger σ)
    (path_components : List String) (args : Args) (test_only : Bool) :
    Except GetFail PyVal :=
  match path_components with
  | [] =>
    match blockcountArg args with
    | Except.error e => Except.error (GetFail.py e)
    | Except.ok blkcount =>
      match collectTxnIds L.BlockStore []
          (L.committed_block_ids blkcount).reverse with
      | Except.error e => Except.error e
      | Except.ok txnids => Except.ok (PyVal.list (txnids.map PyVal.str))
  | txnid :: rest =>
    match alookup L.TransactionStore txnid with
    | none => Except.error (GetFail.http httpNOT_FOUND "no such transaction")
    | some txnOpt =>
      if test_only then
        match txnOpt with
        | none => Except.error (GetFail.py PyErr.attributeError)
        | some txn =>
          if txn.Status = TStatus.committed then
            Except.ok PyVal.pyNone
          else
            Except.error (GetFail.http httpFOUND "transaction not committed")
      else
        match txnOpt with
        | none => Except.error (GetFail.py PyErr.attributeError)
        | some txn =>
          let tinfo := aset (aset txn.dumpD "Identifier" (PyVal.str txnid))
            "Status" (PyVal.status txn.Status)
          let tinfo := if txn.Status = TStatus.committed then
              aset tinfo "InBlock" (PyVal.str txn.InBlock)
            else tinfo
          match rest with
          | [] => Except.ok (PyVal.dict tinfo)
          | field :: _ =>
            match alookup tinfo field with
            | none =>
              Except.error (GetFail.http httpBAD_REQUEST
                "unknown transaction field")
            | some v => Except.ok v

/-- HTTP GET request as seen by do_get. -/
structure GetRequest where
  path : String
  method : String
  accept : Option String
  args : Args

/-- Result of do_get: a rendered page with its response code, or the
fallback to static-content serving for an unrecognized selector. -/
inductive GetOutcome where
  | page (code : Nat) (body : Body)
  | static (path : String)

/-- RootPage.do_get (web_api.py lines 98-156).  The first path
component selects a GetPageMap handler (static content otherwise); the
four handlers other than the transaction handler are external
parameters of the embedding, quantified in every theorem.  A HEAD
request makes the handler run in test_only mode and returns an empty
body on success.  Otherwise the response is serialized per the Accept
header, honoring the pretty argument for json.  A raised twisted Error
is turned into an error response with its status; any other exception
into a generic bad request.  error_response returns an empty body for
HEAD requests. -/
def do_get {σ : Type} (other : String → List String → Args → Bool →
      Except GetFail PyVal) (L : Ledger σ) (req : GetRequest) :
    GetOutcome :=
  let comps := splitPath req.path
  let pfx := match comps with
    | [] => "error"
    | h :: _ => h
  let rest := match comps with
    | [] => []
    | _ :: t => t
  if (pfx = "block" ∨ pfx = "statistics" ∨ pfx = "store" ∨
      pfx = "transaction" ∨ pfx = "status") then
    let test_only := req.method = "HEAD"
    let res := if pfx = "transaction" then
        handle_txn_request L rest req.args test_only
      else
        other pfx rest req.args test_only
    match res with
    | Except.ok v =>
      if test_only then
        GetOutcome.page httpOK (Body.text "")
      else if req.accept = some "application/cbor" then
        GetOutcome.page httpOK (Body.cborVal v)
      else if (alookup req.args "p").isSome then
        GetOutcome.page httpOK (Body.prettyVal v)
      else
        GetOutcome.page httpOK (Body.jsonVal v)
    | Except.error (GetFail.http code _detail) =>
      let er := error_response req.method code
        "exception while processing http request"
      GetOutcome.page er.1 er.2
    | Except.error (GetFail.py _e) =>
      let er := error_response req.method httpBAD_REQUEST
        "error processing http request"
      GetOutcome.page er.1 er.2
  else
    GetOutcome.static req.path

/-! Concrete instances used by witnesses and counterexamples. -/

/-- A transaction of family /f that the toy family accepts. -/
def txnGood : Txn :=
  { Identifier := "tx-good", TransactionTypeName := "/f",
    Status := TStatus.pend, InBlock := "", dumpD := [] }

/-- A transaction of family /f that the toy family check rejects. -/
def txnBad : Txn :=
  { Identifier := "tx-bad", TransactionTypeName := "/f",
    Status := TStatus.pend, InBlock := "", dumpD := [] }

/-- A transaction whose family has no store in the store map. -/
def txnOrphan : Txn :=
  { Identifier := "tx-orphan", TransactionTypeName := "/nostore",
    Status := TStatus.pend, InBlock := "", dumpD := [] }

/-- A committed transaction, for the GET existence check. -/
def txnDone : Txn :=
  { Identifier := "tx-done", TransactionTypeName := "/f",
    Status := TStatus.committed, InBlock := "B0", dumpD := [] }

def msgGood : Msg := { MessageType := "G", Transaction := some txnGood }

def msgBad : Msg := { MessageType := "T", Transaction := some txnBad }

def msgOrphan : Msg := { MessageType := "O", Transaction := some txnOrphan }

/-- Toy collaborator instance over Nat stores: a store accepts up to ten
applied transactions, apply counts them, and the family check rejects
exactly the transaction named tx-bad.  The json codec decodes a
nonempty body into a payload whose type tag and action are the body. -/
def caps0 : Collabs Nat :=
  { is_valid := fun _ s => decide (s < 10),
    applyTxn := fun _ s => s + 1,
    check_valid := fun t _ =>
      if t.Identifier = "tx-bad" then
        Except.error (ChkFail.invalidTransactionError "bad")
      else
        Except.ok (),
    decodeJson := fun b => if b = "" then none else
      if b = "notype" then some { typeTag := none, action := none } else
      some { typeTag := some b, action := some b },
    decodeCbor := fun _ => none,
    signTxn := fun t => t,
    signMsg := fun m => m }

/-- Ledger with one committed block, one family store, and handlers for
the toy message types. -/
def L0 : Ledger Nat :=
  { MostRecentCommittedBlockID := "B0",
    GlobalStoreMap := [("B0", [("/f", 0)])],
    MessageQueue := [],
    PendingTransactions := [],
    TransactionStore := [("tx-done", some txnDone), ("tx-pend", some txnGood)],
    MessageHandlerMap := [("G", fun _ => msgGood), ("T", fun _ => msgBad),
      ("O", fun _ => msgOrphan)],
    BlockStore := [("B0", ["tx-done"])],
    committed_block_ids := fun _ => ["B0"] }

/-- L0 with a pending transaction id whose TransactionStore entry is
None. -/
def L5 : Ledger Nat :=
  { L0 with
    PendingTransactions := ["p-none"],
    TransactionStore := [("p-none", none), ("tx-done", some txnDone)] }

def V0 : ValidatorState := { delaystart := false }

/-- A forward request from a remote peer carrying the accepted
transaction. -/
def reqFwdGood : PostRequest :=
  { path := "/forward", method := "POST",
    contentType := some "application/json", body := "G",
    clientIP := "10.0.0.5" }

/-- An initiate request from a non-loopback origin carrying the
transaction the family check rejects. -/
def reqInitBad : PostRequest :=
  { path := "/initiate", method := "POST",
    contentType := some "application/json", body := "T",
    clientIP := "10.0.0.5" }

/-- An initiate request from a non-loopback origin carrying the
accepted transaction. -/
def reqInitGood : PostRequest :=
  { path := "/initiate", method := "POST",
    contentType := some "application/json", body := "G",
    clientIP := "10.0.0.5" }

/-- A forward request with an unrecognized content type. -/
def reqBadEnc : PostRequest :=
  { path := "/forward", method := "POST",
    contentType := some "text/plain", body := "G",
    clientIP := "10.0.0.5" }

/-- A forward request whose payload type tag is not a handler key. -/
def reqNoType : PostRequest :=
  { path := "/forward", method := "POST",
    contentType := some "application/json", body := "Z",
    clientIP := "10.0.0.5" }

/-- A forward request carrying the transaction of the unregistered
family. -/
def reqFwdOrphan : PostRequest :=
  { path := "/forward", method := "POST",
    contentType := some "application/json", body := "O",
    clientIP := "10.0.0.5" }

/-- L0 with a nonempty message queue and a nonempty pending set. -/
def LBusy : Ledger Nat :=
  { L0 with
    MessageQueue := [some msgGood],
    PendingTransactions := ["tx-pend"] }

/-- A command request with a cbor content type (json is required). -/
def reqCmdBadEnc : PostRequest :=
  { path := "/command", method := "POST",
    contentType := some "application/cbor", body := "G",
    clientIP := "127.0.0.1" }

/-- A forward request whose payload has no type tag entry. -/
def reqNoTag : PostRequest :=
  { path := "/forward", method := "POST",
    contentType := some "application/json", body := "notype",
    clientIP := "10.0.0.5" }

/-- Header-only existence checks for an unknown, an uncommitted, and a
committed transaction id. -/
def reqHeadUnknown : GetRequest :=
  { path := "/transaction/nope", method := "HEAD", accept := none,
    args := [] }

def reqHeadPend : GetRequest :=
  { path := "/transaction/tx-pend", method := "HEAD", accept := none,
    args := [] }

def reqHeadDone : GetRequest :=
  { path := "/transaction/tx-done", method := "HEAD", accept := none,
    args := [] }

/-- A trivial external GET handler for the non-transaction pages. -/
def otherGet0 : String → List String → Args → Bool → Except GetFail PyVal :=
  fun _ _ _ _ => Except.ok PyVal.pyNone

/-! Theorems. -/

/-- Every branch of do_post returns the ledger it was given: the
dispatcher and pipeline never write to a ledger attribute. -/
theorem do_post_ledger_eq {σ : Type} (c : Collabs σ) (L : Ledger σ)
    (V : ValidatorState) (req : PostRequest) :
    (do_post c L V req).ledger = L := by
  unfold do_post
  dsimp only
  repeat' split
  all_goals rfl

/-- Unfolding lemma: one pop of the queue replay loop is one qmsgStep
bound into the rest of the loop. -/
theorem replayQueueGo_cons {σ : Type} (c : Collabs σ)
    (hmap : List (String × (Payload → Msg))) (s : StoreMap σ)
    (m : Option Msg) (ms : List (Option Msg)) :
    replayQueueGo c hmap s (m :: ms) =
      qmsgStep c hmap s m >>= fun s2 => replayQueueGo c hmap s2 ms := by
  cases h : qmsgStep c hmap s m <;>
    simp [replayQueueGo, h, Bind.bind, Except.bind]

/-- Claim C1: for every submitted message and every ledger state,
running do_post (in particular its validation pipeline, which replays
queued and pending work onto the request-private temp_store_map
overlay and onto copies of queued transactions) leaves the real Global
Store Map, Message Queue, and Pending Transactions of the ledger
unchanged, whether validation succeeds or fails. -/
theorem validation_leaves_ledger_unchanged {σ : Type} (c : Collabs σ)
    (L : Ledger σ) (V : ValidatorState) (req : PostRequest) :
    (do_post c L V req).ledger.GlobalStoreMap = L.GlobalStoreMap ∧
    (do_post c L V req).ledger.MessageQueue = L.MessageQueue ∧
    (do_post c L V req).ledger.PendingTransactions =
      L.PendingTransactions := by
  rw [do_post_ledger_eq]
  exact ⟨rfl, rfl, rfl⟩

/-- Claim C2: with Message Queue [A, B, C] (C queued most recently),
the validation pipeline replays the queue copy in last-in-first-out
order - it validates-then-applies C, then B, then A onto the overlay,
each step checked against the overlay state at its point in the
sequence (qmsgStep skips entries that fail validation) - and the final
check of the candidate runs against the cumulative overlay produced by
all applied entries (and the subsequent pending replay). -/
theorem mq_replay_lifo {σ : Type} (c : Collabs σ) (L : Ledger σ)
    (mytxn : Txn) (smap : StoreMap σ) (A B C : Option Msg)
    (hgs : alookup L.GlobalStoreMap L.MostRecentCommittedBlockID =
      some smap)
    (hfam : smapMem smap mytxn.TransactionTypeName = true)
    (hq : L.MessageQueue = [A, B, C]) :
    validationPhase c L mytxn =
      (qmsgStep c L.MessageHandlerMap smap C >>= fun s1 =>
       qmsgStep c L.MessageHandlerMap s1 B >>= fun s2 =>
       qmsgStep c L.MessageHandlerMap s2 A >>= fun s3 =>
       replayPendingGo c L.TransactionStore s3 L.PendingTransactions >>=
         fun s4 =>
       candidateCheck c mytxn s4) := by
  unfold validationPhase
  rw [hgs, hq]
  simp only [hfam, Bool.true_eq_false, if_false, List.reverse_cons,
    List.reverse_nil, List.nil_append, List.cons_append, List.append_nil]
  rw [replayQueueGo_cons]
  cases hC : qmsgStep c L.MessageHandlerMap smap C with
  | error e => simp [Bind.bind, Except.bind]
  | ok s1 =>
    simp only [Bind.bind, Except.bind]
    rw [replayQueueGo_cons]
    cases hB : qmsgStep c L.MessageHandlerMap s1 B with
    | error e => simp [Bind.bind, Except.bind]
    | ok s2 =>
      simp only [Bind.bind, Except.bind]
      rw [replayQueueGo_cons]
      cases hA : qmsgStep c L.MessageHandlerMap s2 A with
      | error e => simp [Bind.bind, Except.bind]
      | ok s3 =>
        simp only [Bind.bind, Except.bind, replayQueueGo]
        cases hP : replayPendingGo c L.TransactionStore s3
            L.PendingTransactions with
        | error e => rfl
        | ok s4 => rfl

/-- Witness for mq_replay_lifo on the concrete toy ledger. -/
theorem mq_replay_lifo_witness :
    alookup (Ledger.GlobalStoreMap
        { L0 with MessageQueue := [some msgGood, none, some msgBad] })
        (Ledger.MostRecentCommittedBlockID L0) = some [("/f", 0)] ∧
    smapMem [("/f", (0 : Nat))] txnGood.TransactionTypeName = true ∧
    validationPhase caps0
        { L0 with MessageQueue := [some msgGood, none, some msgBad] }
        txnGood =
      (qmsgStep caps0 L0.MessageHandlerMap [("/f", 0)] (some msgBad) >>=
        fun s1 => qmsgStep caps0 L0.MessageHandlerMap s1 none >>=
        fun s2 => qmsgStep caps0 L0.MessageHandlerMap s2 (some msgGood) >>=
        fun s3 => replayPendingGo caps0 L0.TransactionStore s3
          L0.PendingTransactions >>=
        fun s4 => candidateCheck caps0 txnGood s4) :=
  ⟨rfl, rfl,
    mq_replay_lifo caps0
      { L0 with MessageQueue := [some msgGood, none, some msgBad] }
      txnGood [("/f", 0)] (some msgGood) none (some msgBad)
      rfl rfl rfl⟩

/-- Claim C3: a candidate transaction whose TransactionTypeName has no
store in the resolved store map is rejected with a bad request before
any queue or pending replay runs: the response is the same for every
Message Queue and Pending Transactions content (both live inside the
arbitrary ledger L, constrained only in its store map), and nothing is
forwarded. -/
theorem unknown_family_rejected {σ : Type} (c : Collabs σ) (L : Ledger σ)
    (V : ValidatorState) (req : PostRequest) (p : Payload)
    (ctor : Payload → Msg) (mytxn : Txn) (smap : StoreMap σ)
    (hpfx : postPfx req ≠ "command")
    (hdec : postDecode c req = DecodeRes.okPayload p)
    (hctor : alookup L.MessageHandlerMap (p.typeTag.getD "**UNSPECIFIED**") =
      some ctor)
    (htxn : (ctor p).Transaction = some mytxn)
    (hgs : alookup L.GlobalStoreMap L.MostRecentCommittedBlockID =
      some smap)
    (hfam : smapMem smap mytxn.TransactionTypeName = false) :
    (do_post c L V req).outcome =
      Except.ok (error_response req.method httpBAD_REQUEST
        "unable to validate enclosed transaction") ∧
    (do_post c L V req).forwarded = [] := by
  have hval : postValidation c L (ctor p) =
      Except.ok (ValidationOutcome.rejected httpBAD_REQUEST
        "unable to validate enclosed transaction") := by
    unfold postValidation
    rw [htxn]
    unfold validationPhase
    rw [hgs]
    dsimp only
    rw [if_pos hfam]
  unfold do_post
  dsimp only
  rw [if_neg hpfx, hdec]
  dsimp only
  rw [hctor]
  dsimp only
  rw [hval]
  exact ⟨rfl, rfl⟩

/-- Witness for unknown_family_rejected: a forwarded message carrying a
transaction of the unregistered family /nostore, with nonempty queue
and pending sets in the ledger. -/
theorem unknown_family_rejected_witness :
    postPfx reqFwdOrphan ≠ "command" ∧
    postDecode caps0 reqFwdOrphan =
      DecodeRes.okPayload { typeTag := some "O", action := some "O" } ∧
    smapMem [("/f", (0 : Nat))] txnOrphan.TransactionTypeName = false ∧
    (do_post caps0 LBusy V0 reqFwdOrphan).outcome =
      Except.ok (error_response reqFwdOrphan.method httpBAD_REQUEST
        "unable to validate enclosed transaction") ∧
    (do_post caps0 LBusy V0 reqFwdOrphan).forwarded = [] := by
  refine ⟨by decide, rfl, rfl, ?_⟩
  exact unknown_family_rejected caps0 LBusy V0 reqFwdOrphan
    { typeTag := some "O", action := some "O" } (fun _ => msgOrphan)
    txnOrphan [("/f", 0)] (by decide) rfl rfl rfl rfl rfl

/-- Counterexample to claim C4 as stated: a POST to /initiate from the
non-loopback origin 10.0.0.5 whose message carries a transaction that
fails the family validation check is answered with bad-request (400),
not with the not-allowed (405) NotAuthorized response the claim
promises for every message content. -/
theorem initiate_nonloopback_cex :
    postPfx reqInitBad = "initiate" ∧
    reqInitBad.clientIP ≠ "127.0.0.1" ∧
    (do_post caps0 L0 V0 reqInitBad).statusCode = some httpBAD_REQUEST ∧
    (do_post caps0 L0 V0 reqInitBad).statusCode ≠ some httpNOT_ALLOWED := by
  exact ⟨rfl, by decide, rfl, by decide⟩

/-- Claim C4 amended: a POST to /initiate from a non-loopback origin
never invokes the gossip-forward collaborator, whatever the message
contents; and whenever the request actually reaches the initiate
handler (its payload decodes, its type tag resolves to a handler, and
any enclosed transaction passes the validation pipeline) the response
is the not-allowed NotAuthorized error. -/
theorem initiate_nonloopback {σ : Type} (c : Collabs σ) (L : Ledger σ)
    (V : ValidatorState) (req : PostRequest)
    (hpfx : postPfx req = "initiate")
    (hip : req.clientIP ≠ "127.0.0.1") :
    (do_post c L V req).forwarded = [] ∧
    (∀ (p : Payload) (ctor : Payload → Msg),
      postDecode c req = DecodeRes.okPayload p →
      alookup L.MessageHandlerMap (p.typeTag.getD "**UNSPECIFIED**") =
        some ctor →
      postValidation c L (ctor p) = Except.ok ValidationOutcome.valid →
      (do_post c L V req).outcome =
        Except.ok (error_response req.method httpNOT_ALLOWED
          "exception while processing request")) := by
  have hrun : ∀ msg : Msg, runPostHandler c "initiate" req.clientIP msg =
      Except.error (httpNOT_ALLOWED,
        "not authorized for message initiation") := by
    intro msg
    unfold runPostHandler
    rw [if_pos rfl, if_pos hip]
  constructor
  · unfold do_post
    dsimp only
    rw [hpfx, if_neg (by decide : ¬ ("initiate" = "command"))]
    cases hd : postDecode c req with
    | badEnc => rfl
    | decodeFail => rfl
    | okPayload p =>
      dsimp only
      cases hc : alookup L.MessageHandlerMap
          (p.typeTag.getD "**UNSPECIFIED**") with
      | none => rfl
      | some ctor =>
        dsimp only
        cases hv : postValidation c L (ctor p) with
        | error e => rfl
        | ok vo =>
          cases vo with
          | rejected code msgText => rfl
          | valid =>
            dsimp only
            rw [hrun]
  · intro p ctor hd hc hv
    unfold do_post
    dsimp only
    rw [hpfx, if_neg (by decide : ¬ ("initiate" = "command")), hd]
    dsimp only
    rw [hc]
    dsimp only
    rw [hv]
    dsimp only
    rw [hrun]

/-- Witness for initiate_nonloopback: a non-loopback initiate request
whose enclosed transaction passes validation is answered 405 and
nothing is forwarded. -/
theorem initiate_nonloopback_witness :
    postPfx reqInitGood = "initiate" ∧
    reqInitGood.clientIP ≠ "127.0.0.1" ∧
    (do_post caps0 L0 V0 reqInitGood).forwarded = [] ∧
    (do_post caps0 L0 V0 reqInitGood).outcome =
      Except.ok (error_response reqInitGood.method httpNOT_ALLOWED
        "exception while processing request") := by
  refine ⟨rfl, by decide, ?_, ?_⟩
  · exact (initiate_nonloopback caps0 L0 V0 reqInitGood rfl (by decide)).1
  · exact (initiate_nonloopback caps0 L0 V0 reqInitGood rfl (by decide)).2
      { typeTag := some "G", action := some "G" } (fun _ => msgGood)
      rfl rfl rfl

/-- Claim C5, evaluated at the failing input: a ledger whose pending
set contains the id p-none mapped to None in the TransactionStore.
Contrary to the lenient-replay claim, the submission of a perfectly
valid transaction is not answered at all: the pending replay loop
raises AttributeError (the attribute access precedes the None guard)
and the whole do_post call escapes with the exception instead of
skipping the bad entry. -/
theorem none_pending_aborts_do_post :
    (do_post caps0 L5 V0 reqFwdGood).outcome =
      Except.error PyErr.attributeError := rfl

/-- Claim C7: for a header-only request on /transaction/<id>, an id
missing from the Transaction Store is answered not-found (404) with an
empty body, a known but uncommitted transaction is answered found
(302) with an empty body, and a known committed transaction is
answered success (200) with an empty body. -/
theorem txn_head_existence_ternary {σ : Type}
    (other : String → List String → Args → Bool → Except GetFail PyVal)
    (L : Ledger σ) (req : GetRequest) (tid : String)
    (hm : req.method = "HEAD")
    (hp : splitPath req.path = ["transaction", tid]) :
    (alookup L.TransactionStore tid = none →
      do_get other L req = GetOutcome.page httpNOT_FOUND (Body.text "")) ∧
    (∀ txn : Txn, alookup L.TransactionStore tid = some (some txn) →
      txn.Status ≠ TStatus.committed →
      do_get other L req = GetOutcome.page httpFOUND (Body.text "")) ∧
    (∀ txn : Txn, alookup L.TransactionStore tid = some (some txn) →
      txn.Status = TStatus.committed →
      do_get other L req = GetOutcome.page httpOK (Body.text "")) := by
  refine ⟨?_, ?_, ?_⟩
  · intro h
    unfold do_get
    rw [hp, hm]
    dsimp only
    rw [if_pos (Or.inr (Or.inr (Or.inr (Or.inl rfl)))), if_pos rfl]
    unfold handle_txn_request
    dsimp only
    rw [h]
    rfl
  · intro txn h hst
    unfold do_get
    rw [hp, hm]
    dsimp only
    rw [if_pos (Or.inr (Or.inr (Or.inr (Or.inl rfl)))), if_pos rfl]
    unfold handle_txn_request
    dsimp only
    rw [h]
    dsimp only
    rw [if_neg hst]
    rfl
  · intro txn h hst
    unfold do_get
    rw [hp, hm]
    dsimp only
    rw [if_pos (Or.inr (Or.inr (Or.inr (Or.inl rfl)))), if_pos rfl]
    unfold handle_txn_request
    dsimp only
    rw [h]
    dsimp only
    rw [if_pos hst]
    rfl

/-- Witness for txn_head_existence_ternary: the three concrete
header-only requests against the toy ledger. -/
theorem txn_head_existence_ternary_witness :
    splitPath reqHeadUnknown.path = ["transaction", "nope"] ∧
    alookup L0.TransactionStore "nope" = none ∧
    do_get otherGet0 L0 reqHeadUnknown =
      GetOutcome.page httpNOT_FOUND (Body.text "") ∧
    do_get otherGet0 L0 reqHeadPend =
      GetOutcome.page httpFOUND (Body.text "") ∧
    do_get otherGet0 L0 reqHeadDone =
      GetOutcome.page httpOK (Body.text "") := by
  refine ⟨rfl, rfl, ?_, ?_, ?_⟩
  · exact (txn_head_existence_ternary otherGet0 L0 reqHeadUnknown "nope"
      rfl rfl).1 rfl
  · exact (txn_head_existence_ternary otherGet0 L0 reqHeadPend "tx-pend"
      rfl rfl).2.1 txnGood rfl (by decide)
  · exact (txn_head_existence_ternary otherGet0 L0 reqHeadDone "tx-done"
      rfl rfl).2.2 txnDone rfl rfl

/-- Claim C8: a POST whose declared content type is outside the
recognized set is answered with a bad-request encoding failure before
any decoding, validation or forwarding: on the gossip paths anything
other than application/json or application/cbor, and on /command
anything other than application/json.  Both conclusions are fixed
responses independent of the request body, the codecs, and the whole
ledger, and nothing is forwarded. -/
theorem bad_encoding_rejected {σ : Type} (c : Collabs σ) (L : Ledger σ)
    (V : ValidatorState) (req : PostRequest) :
    (postPfx req ≠ "command" →
      req.contentType ≠ some "application/json" →
      req.contentType ≠ some "application/cbor" →
      (do_post c L V req).outcome =
        Except.ok (error_response req.method httpBAD_REQUEST
          "unknown message encoding") ∧
      (do_post c L V req).forwarded = []) ∧
    (postPfx req = "command" →
      req.contentType ≠ some "application/json" →
      (do_post c L V req).outcome =
        Except.ok (error_response req.method httpBAD_REQUEST
          "bad message encoding") ∧
      (do_post c L V req).forwarded = []) := by
  constructor
  · intro hpfx h1 h2
    have hdec : postDecode c req = DecodeRes.badEnc := by
      unfold postDecode
      rw [if_neg h1, if_neg h2]
    unfold do_post
    dsimp only
    rw [if_neg hpfx, hdec]
    exact ⟨rfl, rfl⟩
  · intro hpfx h1
    unfold do_post
    dsimp only
    rw [hpfx, if_pos rfl, if_neg h1]
    exact ⟨rfl, rfl⟩

/-- Witness for bad_encoding_rejected: a gossip submission declared as
text/plain and a command submission declared as application/cbor. -/
theorem bad_encoding_rejected_witness :
    postPfx reqBadEnc ≠ "command" ∧
    reqBadEnc.contentType = some "text/plain" ∧
    (do_post caps0 L0 V0 reqBadEnc).outcome =
      Except.ok (error_response reqBadEnc.method httpBAD_REQUEST
        "unknown message encoding") ∧
    postPfx reqCmdBadEnc = "command" ∧
    (do_post caps0 L0 V0 reqCmdBadEnc).outcome =
      Except.ok (error_response reqCmdBadEnc.method httpBAD_REQUEST
        "bad message encoding") := by
  refine ⟨by decide, rfl, ?_, rfl, ?_⟩
  · exact ((bad_encoding_rejected caps0 L0 V0 reqBadEnc).1 (by decide)
      (by decide) (by decide)).1
  · exact ((bad_encoding_rejected caps0 L0 V0 reqCmdBadEnc).2 rfl
      (by decide)).1

/-- Claim C9: a gossip POST whose decoded payload has no recognized
type is answered bad-request (unknown message type) and neither the
validation pipeline nor any handler runs (nothing is forwarded).  The
type name is the payload type tag defaulting to **UNSPECIFIED** when
the tag entry is missing, so a payload without the tag is treated as
unknown whenever **UNSPECIFIED** is not a handler key. -/
theorem unknown_msg_type_rejected {σ : Type} (c : Collabs σ)
    (L : Ledger σ) (V : ValidatorState) (req : PostRequest) (p : Payload)
    (hpfx : postPfx req ≠ "command")
    (hdec : postDecode c req = DecodeRes.okPayload p)
    (htype : alookup L.MessageHandlerMap (p.typeTag.getD "**UNSPECIFIED**") =
      none) :
    (do_post c L V req).outcome =
      Except.ok (error_response req.method httpBAD_REQUEST
        "received request for unknown message type") ∧
    (do_post c L V req).forwarded = [] := by
  unfold do_post
  dsimp only
  rw [if_neg hpfx, hdec]
  dsimp only
  rw [htype]
  exact ⟨rfl, rfl⟩

/-- Witness for unknown_msg_type_rejected: a payload with no type tag
entry at all, so the **UNSPECIFIED** default is looked up and missed. -/
theorem unknown_msg_type_rejected_witness :
    postDecode caps0 reqNoTag =
      DecodeRes.okPayload { typeTag := none, action := none } ∧
    alookup L0.MessageHandlerMap
      ((none : Option String).getD "**UNSPECIFIED**") = none ∧
    (do_post caps0 L0 V0 reqNoTag).outcome =
      Except.ok (error_response reqNoTag.method httpBAD_REQUEST
        "received request for unknown message type") ∧
    (do_post caps0 L0 V0 reqNoTag).forwarded = [] := by
  refine ⟨rfl, rfl, ?_⟩
  exact unknown_msg_type_rejected caps0 L0 V0 reqNoTag
    { typeTag := none, action := none } (by decide) rfl rfl

/-- Claim C10: in the pending replay loop the attribute access
pend_txn.TransactionTypeName precedes the truthiness guard, so as soon
as the loop reaches a pending id that the Transaction Store maps to
None, the replay raises AttributeError - aborting the loop instead of
skipping the entry, whatever entries remain. -/
theorem pending_none_raises_attribute_error {σ : Type} (c : Collabs σ)
    (ts : List (String × Option Txn)) (smap : StoreMap σ)
    (ks1 ks2 : List String) (k : String) (s1 : StoreMap σ)
    (hpre : replayPendingGo c ts smap ks1 = Except.ok s1)
    (hk : alookup ts k = some none) :
    replayPendingGo c ts smap (ks1 ++ k :: ks2) =
      Except.error PyErr.attributeError := by
  induction ks1 generalizing smap with
  | nil =>
    simp only [List.nil_append]
    unfold replayPendingGo pendStep
    rw [hk]
  | cons a as ih =>
    simp only [List.cons_append]
    unfold replayPendingGo at hpre ⊢
    cases h : pendStep c ts smap a with
    | error e =>
      rw [h] at hpre
      cases hpre
    | ok s2 =>
      rw [h] at hpre
      dsimp only
      exact ih s2 hpre

/-- Witness for pending_none_raises_attribute_error: one good pending
entry is applied, then the None entry aborts the replay even though a
processable entry follows it. -/
theorem pending_none_raises_attribute_error_witness :
    replayPendingGo caps0 [("a", some txnGood), ("b", none)]
      [("/f", (0 : Nat))] ["a"] = Except.ok [("/f", 1)] ∧
    alookup [("a", some txnGood), ("b", none)] "b" = some none ∧
    replayPendingGo caps0 [("a", some txnGood), ("b", none)]
      [("/f", (0 : Nat))] (["a"] ++ "b" :: ["a"]) =
      Except.error PyErr.attributeError := by
  refine ⟨rfl, rfl, ?_⟩
  exact pending_none_raises_attribute_error caps0
    [("a", some txnGood), ("b", none)] [("/f", 0)] ["a"] ["a"] "b"
    [("/f", 1)] rfl rfl

end WebApi
